import Mathlib

/-!
A shallow embedding of the order/checkout/payment core of an e-commerce
backend (`app/services/order_service.py`, `app/services/cart_service.py`,
`app/models/{product,cart,order}.py`), together with theorems settling the
specification claims about it.

Conventions of the embedding:

* Monetary `DECIMAL(10,2)` columns are represented as natural numbers of
  cents (`29.99` is `2999`).  Intermediate `Decimal` arithmetic that leaves
  the cent grid (the tax computation `subtotal * Decimal('0.10')`) is carried
  exactly in tenth-of-cent units and quantized back to cents on persistence.
* `stock_quantity` (a Python `int`) is an integer `Int`.
* The database session is a pure `State` value; every service method is a
  function from a `State` to a new `State` together with an
  `Except ApiError` result, mirroring the method's commits and raises.
* The simulated payment gateway draws randomness; its response is therefore
  passed to `process_payment` as an explicit argument.
* Nondeterministic order-number generation (`uuid`) is likewise an explicit
  argument, and timestamps (`datetime.utcnow()`) an explicit `now` argument.
-/

namespace ECom

/-- `OrderStatus` enumeration (`app/models/order.py`). -/
inductive OrderStatus where
  | pending
  | paid
  | shipped
  | delivered
  | cancelled
deriving DecidableEq, Repr

/-- `PaymentStatus` enumeration (`app/models/order.py`). -/
inductive PaymentStatus where
  | pending
  | processing
  | completed
  | failed
  | refunded
deriving DecidableEq, Repr

/-- `Product` model (`app/models/product.py`); `price` in cents. -/
structure Product where
  id : Nat
  name : String
  sku : String
  price : Nat
  stock_quantity : Int
  is_active : Bool
deriving DecidableEq, Repr

/-- `Product.can_order`: `is_active and stock_quantity >= quantity`. -/
def Product.can_order (p : Product) (quantity : Nat) : Bool :=
  p.is_active && ((quantity : Int) ≤ p.stock_quantity)

/-- `CartItem` model (`app/models/cart.py`); `unit_price` in cents. -/
structure CartItem where
  product_id : Nat
  quantity : Nat
  unit_price : Nat
deriving DecidableEq, Repr

/-- `CartItem.subtotal`: `quantity * unit_price`. -/
def CartItem.subtotal (ci : CartItem) : Nat :=
  ci.quantity * ci.unit_price

/-- `Cart` model (`app/models/cart.py`). -/
structure Cart where
  id : Nat
  user_id : Nat
  items : List CartItem
deriving DecidableEq, Repr

/-- `Cart.total_amount`: sum of the items' subtotals. -/
def Cart.total_amount (c : Cart) : Nat :=
  (c.items.map CartItem.subtotal).sum

/-- `Cart.is_empty`: `len(self.items) == 0`. -/
def Cart.is_empty (c : Cart) : Bool :=
  c.items.isEmpty

/-- `OrderItem` model (`app/models/order.py`): snapshot of a product at
order-creation time; amounts in cents. -/
structure OrderItem where
  product_id : Nat
  quantity : Nat
  unit_price : Nat
  total_price : Nat
  product_name : String
  product_sku : String
deriving DecidableEq, Repr

/-- `Order` model (`app/models/order.py`); amounts in cents, timestamps as
abstract `Nat` instants. -/
structure Order where
  id : Nat
  order_number : String
  user_id : Nat
  status : OrderStatus
  payment_status : PaymentStatus
  subtotal : Nat
  tax_amount : Nat
  shipping_amount : Nat
  discount_amount : Nat
  total_amount : Nat
  shipping_address : String
  billing_address : Option String
  phone : Option String
  notes : Option String
  payment_method : Option String
  payment_transaction_id : Option String
  items : List OrderItem
  shipped_at : Option Nat
  delivered_at : Option Nat
deriving DecidableEq, Repr

/-- `Order.can_be_cancelled`: `status in [PENDING, PAID]`. -/
def Order.can_be_cancelled (o : Order) : Bool :=
  o.status == OrderStatus.pending || o.status == OrderStatus.paid

/-- The database contents relevant to the cart/order workflow.  Primary-key
columns (`Product.id`, `Cart.id`, `Order.id`) are unique in any state
reachable through the ORM; theorems take such uniqueness as hypotheses where
they need it.  `nextOrderId` models the autoincrement id of `orders`. -/
structure State where
  products : List Product
  carts : List Cart
  orders : List Order
  nextOrderId : Nat
deriving DecidableEq, Repr

/-- `CheckoutRequest` schema (`app/schemas/order.py`). -/
structure CheckoutRequest where
  shipping_address : String
  billing_address : Option String
  phone : Option String
  notes : Option String
  payment_method : String
deriving DecidableEq, Repr

/-- The `HTTPException`s raised by the cart and order services, keyed by
their `detail` messages. `internalFkError` stands for the `AttributeError`
crash on a dangling `product_id` foreign key, which the database's FK
constraints preclude. -/
inductive ApiError where
  | cartEmpty
  | productUnavailable (name : String)
  | insufficientStock (name : String) (available : Int)
  | cartNotFound
  | itemNotFound
  | productNotFound
  | orderNotFound
  | cannotBePaid
  | paymentAlreadyProcessed
  | paymentFailed (message : String)
  | invalidTransition (src dst : OrderStatus)
  | orderCannotBeCancelled
  | internalFkError
deriving DecidableEq, Repr

/-- Look a product up by primary key: `db.query(Product).filter(Product.id == pid).first()`,
and also the `cart_item.product` / `order_item.product` relationship. -/
def findProduct (ps : List Product) (pid : Nat) : Option Product :=
  ps.find? (fun p => p.id == pid)

/-- Mutate the stock of the product row with id `pid` by `delta`
(`product.stock_quantity += delta`).  Ids are unique, so at most one row is
really affected; mapping over all matches keeps the function total. -/
def updateStock (ps : List Product) (pid : Nat) (delta : Int) : List Product :=
  ps.map (fun p =>
    if p.id == pid then { p with stock_quantity := p.stock_quantity + delta } else p)

/-- The validation loop of `create_order_from_cart` (lines 64-76): for each
cart item, raise `ProductUnavailable` if its product is inactive, then
`InsufficientStock` if `can_order` fails. -/
def validateCartItems (ps : List Product) : List CartItem → Option ApiError
  | [] => none
  | ci :: rest =>
    match findProduct ps ci.product_id with
    | none => some ApiError.internalFkError
    | some product =>
      if !product.is_active then
        some (ApiError.productUnavailable product.name)
      else if !product.can_order ci.quantity then
        some (ApiError.insufficientStock product.name product.stock_quantity)
      else
        validateCartItems ps rest

/-- Modelled from the spec: persistence into a `DECIMAL(10,2)` column.  The
storage layer (`app/database.py`, not under src/) quantizes a value given
here in tenth-of-cent units to whole cents; the spec states
`tax_amount = round(subtotal * 0.10, 2)`, i.e. rounding half up for these
nonnegative amounts. -/
def quantizeTenthCents (t : Nat) : Nat :=
  (t + 5) / 10

/-- Build the snapshot `OrderItem` for one cart item (lines 108-117 of
`order_service.py`): copies the cart item's quantity and unit price and the
product's current name and sku. -/
def snapshotItem (ps : List Product) (ci : CartItem) : OrderItem :=
  { product_id := ci.product_id
    quantity := ci.quantity
    unit_price := ci.unit_price
    total_price := ci.subtotal
    product_name := (((findProduct ps ci.product_id).map Product.name)).getD ""
    product_sku := (((findProduct ps ci.product_id).map Product.sku)).getD "" }

/-- The stock-decrement loop of `create_order_from_cart` (line 122):
`product.stock_quantity -= cart_item.quantity` for each cart item. -/
def decrementStock (ps : List Product) (items : List CartItem) : List Product :=
  items.foldl (fun acc ci => updateStock acc ci.product_id (-(ci.quantity : Int))) ps

/-- `db.query(CartItem).filter(CartItem.cart_id == cart.id).delete()`
(line 125): the cart row stays, its items are removed. -/
def emptyUserCart (carts : List Cart) (cart : Cart) : List Cart :=
  carts.map (fun c => if c.id == cart.id then { c with items := [] } else c)

/-- The `Order` row built by `create_order_from_cart` (lines 78-117).  The
raw `Decimal` tax is `subtotal * 0.10`, i.e. exactly `subtotal`
tenth-of-cents; the raw total is `subtotal + tax + shipping`, i.e.
`10*subtotal + subtotal + 10*shipping` tenth-of-cents; both are quantized
to cents by the `DECIMAL(10,2)` columns they are persisted into. -/
def createdOrder (s : State) (user_id : Nat) (req : CheckoutRequest)
    (order_number : String) (cart : Cart) : Order :=
  let subtotal := cart.total_amount
  { id := s.nextOrderId
    order_number := order_number
    user_id := user_id
    status := OrderStatus.pending
    payment_status := PaymentStatus.pending
    subtotal := subtotal
    tax_amount := quantizeTenthCents subtotal
    shipping_amount := if subtotal < 10000 then 1000 else 0
    discount_amount := 0
    total_amount :=
      quantizeTenthCents
        (10 * subtotal + subtotal + 10 * (if subtotal < 10000 then 1000 else 0))
    shipping_address := req.shipping_address
    billing_address := req.billing_address
    phone := req.phone
    notes := req.notes
    payment_method := some req.payment_method
    payment_transaction_id := none
    items := cart.items.map (snapshotItem s.products)
    shipped_at := none
    delivered_at := none }

/-- `OrderService.create_order_from_cart` (lines 42-130).  `order_number`
stands for the `uuid`-generated number. -/
def create_order_from_cart (s : State) (user_id : Nat) (req : CheckoutRequest)
    (order_number : String) : State × Except ApiError Order :=
  match s.carts.find? (fun c => c.user_id == user_id) with
  | none => (s, Except.error ApiError.cartEmpty)
  | some cart =>
    if cart.is_empty then (s, Except.error ApiError.cartEmpty)
    else
      match validateCartItems s.products cart.items with
      | some e => (s, Except.error e)
      | none =>
        let order := createdOrder s user_id req order_number cart
        ({ s with
            products := decrementStock s.products cart.items
            carts := emptyUserCart s.carts cart
            orders := s.orders ++ [order]
            nextOrderId := s.nextOrderId + 1 },
          Except.ok order)

/-- Replace the order row with `o.id` by `o` (the session flushing the
mutated ORM object). -/
def setOrder (s : State) (o : Order) : State :=
  { s with orders := s.orders.map (fun x => if x.id == o.id then o else x) }

/-- The stock-restoration loop shared by `process_payment` (lines 180-183)
and `cancel_order` (lines 308-311): for each order item, look its product up
by id and, if present, add the item's quantity back. -/
def restoreStock (ps : List Product) (items : List OrderItem) : List Product :=
  items.foldl
    (fun acc it =>
      match findProduct acc it.product_id with
      | some _ => updateStock acc it.product_id (it.quantity : Int)
      | none => acc)
    ps

/-- `PaymentResponse` schema: the simulated gateway's answer.  The gateway
draws randomness, so the response is an explicit argument of
`process_payment`. -/
structure PaymentResponse where
  transaction_id : String
  status : PaymentStatus
  message : String
deriving DecidableEq, Repr

/-- `OrderService.process_payment` (lines 132-194).  Returns the list of
states committed by the method, in commit order (empty when a guard raises
before any commit), alongside the returned response or raised error.  The
first commit (payment_status = PROCESSING) happens before the gateway is
consulted; on a FAILED gateway response the stock restoration and status
updates are committed and only then is the `PaymentFailed` error raised. -/
def process_payment (s : State) (user_id order_id : Nat) (gw : PaymentResponse) :
    List State × Except ApiError Order :=
  match s.orders.find? (fun o => o.id == order_id && o.user_id == user_id) with
  | none => ([], Except.error ApiError.orderNotFound)
  | some order =>
    if order.status != OrderStatus.pending then
      ([], Except.error ApiError.cannotBePaid)
    else if order.payment_status != PaymentStatus.pending then
      ([], Except.error ApiError.paymentAlreadyProcessed)
    else
      let order1 := { order with payment_status := PaymentStatus.processing }
      let s1 := setOrder s order1
      -- the gateway is invoked here, after the first commit
      let order2 := { order1 with
        payment_status := gw.status
        payment_transaction_id := some gw.transaction_id }
      if gw.status == PaymentStatus.completed then
        let order3 := { order2 with status := OrderStatus.paid }
        let s2 := setOrder s1 order3
        ([s1, s2], Except.ok order3)
      else if gw.status == PaymentStatus.failed then
        let order3 := { order2 with status := OrderStatus.pending }
        let s2 := { setOrder s1 order3 with products := restoreStock s1.products order.items }
        ([s1, s2], Except.error (ApiError.paymentFailed gw.message))
      else
        let s2 := setOrder s1 order2
        ([s1, s2], Except.ok order2)

/-- The state in which `process_payment` leaves the database: the last
committed state, or the input state when no commit happened. -/
def process_payment_final (s : State) (user_id order_id : Nat) (gw : PaymentResponse) :
    State × Except ApiError Order :=
  let r := process_payment s user_id order_id gw
  (r.1.getLastD s, r.2)

/-- `OrderService.cancel_order` (lines 285-317). -/
def cancel_order (s : State) (user_id order_id : Nat) : State × Except ApiError Order :=
  match s.orders.find? (fun o => o.id == order_id && o.user_id == user_id) with
  | none => (s, Except.error ApiError.orderNotFound)
  | some order =>
    if !order.can_be_cancelled then
      (s, Except.error ApiError.orderCannotBeCancelled)
    else
      let order2 := { order with status := OrderStatus.cancelled }
      ({ setOrder s order2 with products := restoreStock s.products order.items },
        Except.ok order2)

/-- `OrderUpdate` schema (`app/schemas/order.py`): a patch where every field
is optional. -/
structure OrderUpdate where
  status : Option OrderStatus := none
  payment_status : Option PaymentStatus := none
  shipping_address : Option String := none
  billing_address : Option String := none
  phone : Option String := none
  notes : Option String := none
  payment_transaction_id : Option String := none
deriving DecidableEq, Repr

/-- The `valid_transitions` table of
`OrderService._validate_status_transition` (lines 385-391). -/
def valid_transitions (cur : OrderStatus) : List OrderStatus :=
  match cur with
  | OrderStatus.pending => [OrderStatus.paid, OrderStatus.cancelled]
  | OrderStatus.paid => [OrderStatus.shipped, OrderStatus.cancelled]
  | OrderStatus.shipped => [OrderStatus.delivered]
  | OrderStatus.delivered => []
  | OrderStatus.cancelled => []

/-- `OrderService._validate_status_transition` (lines 374-393):
`new_status in valid_transitions.get(current_status, [])`. -/
def validate_status_transition (cur dst : OrderStatus) : Bool :=
  (valid_transitions cur).contains dst

/-- The non-status field updates of `update_order_status` (lines 267-279).
`if update_data.shipping_address:` is a Python truthiness test, so an empty
string is skipped; the other fields are compared with `is not None`. -/
def applyOtherUpdates (o : Order) (upd : OrderUpdate) : Order :=
  let o := match upd.payment_status with
    | some ps => { o with payment_status := ps }
    | none => o
  let o := match upd.shipping_address with
    | some a => if a ≠ "" then { o with shipping_address := a } else o
    | none => o
  let o := match upd.billing_address with
    | some a => { o with billing_address := some a }
    | none => o
  let o := match upd.phone with
    | some a => { o with phone := some a }
    | none => o
  let o := match upd.notes with
    | some a => { o with notes := some a }
    | none => o
  match upd.payment_transaction_id with
    | some a => { o with payment_transaction_id := some a }
    | none => o

/-- `OrderService.update_order_status` (lines 231-283), the admin path: no
user filter on the order lookup; a requested status change is checked
against the transition table, a transition to SHIPPED or DELIVERED stamps
the corresponding timestamp with `now`. -/
def update_order_status (s : State) (order_id : Nat) (upd : OrderUpdate) (now : Nat) :
    State × Except ApiError Order :=
  match s.orders.find? (fun o => o.id == order_id) with
  | none => (s, Except.error ApiError.orderNotFound)
  | some order =>
    match upd.status with
    | some dst =>
      if !validate_status_transition order.status dst then
        (s, Except.error (ApiError.invalidTransition order.status dst))
      else
        let order1 := { order with
          status := dst
          shipped_at := if dst == OrderStatus.shipped then some now else order.shipped_at
          delivered_at := if dst == OrderStatus.delivered then some now else order.delivered_at }
        let order2 := applyOtherUpdates order1 upd
        (setOrder s order2, Except.ok order2)
    | none =>
      let order2 := applyOtherUpdates order upd
      (setOrder s order2, Except.ok order2)

/-- `CartService.clear_cart` (lines 222-246): raises `CartNotFound` when the
user has no cart; otherwise deletes all the cart's items (the cart row
itself stays). -/
def clear_cart (s : State) (user_id : Nat) : State × Except ApiError Cart :=
  match s.carts.find? (fun c => c.user_id == user_id) with
  | none => (s, Except.error ApiError.cartNotFound)
  | some cart =>
    ({ s with carts := s.carts.map (fun c => if c.id == cart.id then { c with items := [] } else c) },
      Except.ok { cart with items := [] })

/-! ### Proof infrastructure

`stockDelta`/`applyDeltas` are a proof-side normal form for sequences of
stock mutations; `sumStock` totals the stock column. -/

/-- Net stock change that a list of `(product_id, delta)` mutations applies
to the product with id `pid`. -/
def stockDelta (l : List (Nat × Int)) (pid : Nat) : Int :=
  ((l.filter (fun x => x.1 == pid)).map (fun x => x.2)).sum

/-- Apply a list of `(product_id, delta)` stock mutations in order. -/
def applyDeltas (ps : List Product) (l : List (Nat × Int)) : List Product :=
  l.foldl (fun acc x => updateStock acc x.1 x.2) ps

/-- Total stock over all product rows. -/
def sumStock (ps : List Product) : Int :=
  (ps.map (fun p => p.stock_quantity)).sum

theorem findProduct_mem_ids {ps : List Product} {pid : Nat} {p : Product}
    (h : findProduct ps pid = some p) : pid ∈ ps.map (fun q => q.id) := by
  have hmem := List.mem_of_find?_eq_some h
  have hp := List.find?_some h
  have hid : p.id = pid := by simpa using hp
  exact hid ▸ List.mem_map_of_mem _ hmem

theorem findProduct_isSome_of_mem {ps : List Product} {pid : Nat}
    (h : pid ∈ ps.map (fun q => q.id)) : (findProduct ps pid).isSome := by
  rcases List.mem_map.mp h with ⟨p, hp, hid⟩
  exact (List.find?_isSome ..).mpr ⟨p, hp, by simp [hid]⟩

theorem updateStock_cons (p : Product) (ps : List Product) (pid : Nat) (d : Int) :
    updateStock (p :: ps) pid d =
      (if p.id == pid then { p with stock_quantity := p.stock_quantity + d } else p) ::
        updateStock ps pid d := rfl

theorem updateStock_length (ps : List Product) (pid : Nat) (d : Int) :
    (updateStock ps pid d).length = ps.length := List.length_map ..

theorem updateStock_getElem? (ps : List Product) (pid : Nat) (d : Int) (i : Nat) :
    (updateStock ps pid d)[i]? =
      ps[i]?.map (fun p =>
        if p.id == pid then { p with stock_quantity := p.stock_quantity + d } else p) := by
  simp [updateStock]

theorem updateStock_ids (ps : List Product) (pid : Nat) (d : Int) :
    (updateStock ps pid d).map (fun q => q.id) = ps.map (fun q => q.id) := by
  induction ps with
  | nil => rfl
  | cons p ps ih =>
    rw [updateStock_cons, List.map_cons, List.map_cons, ih]
    by_cases hid : p.id = pid <;> simp [hid]

theorem updateStock_of_not_mem {ps : List Product} {pid : Nat} (d : Int)
    (h : pid ∉ ps.map (fun q => q.id)) : updateStock ps pid d = ps := by
  induction ps with
  | nil => rfl
  | cons p ps ih =>
    rw [List.map_cons, List.mem_cons] at h
    push_neg at h
    rw [updateStock_cons, if_neg (by simp; exact fun hh => h.1 hh.symm), ih h.2]

theorem stockDelta_nil (pid : Nat) : stockDelta [] pid = 0 := rfl

theorem stockDelta_cons (x : Nat × Int) (l : List (Nat × Int)) (pid : Nat) :
    stockDelta (x :: l) pid = (if x.1 == pid then x.2 else 0) + stockDelta l pid := by
  by_cases h : x.1 = pid <;> simp [stockDelta, List.filter_cons, h]

theorem applyDeltas_nil (ps : List Product) : applyDeltas ps [] = ps := rfl

theorem applyDeltas_cons (ps : List Product) (x : Nat × Int) (l : List (Nat × Int)) :
    applyDeltas ps (x :: l) = applyDeltas (updateStock ps x.1 x.2) l := rfl

theorem applyDeltas_length (l : List (Nat × Int)) (ps : List Product) :
    (applyDeltas ps l).length = ps.length := by
  induction l generalizing ps with
  | nil => rfl
  | cons x l ih => rw [applyDeltas_cons, ih, updateStock_length]

theorem applyDeltas_ids (l : List (Nat × Int)) (ps : List Product) :
    (applyDeltas ps l).map (fun q => q.id) = ps.map (fun q => q.id) := by
  induction l generalizing ps with
  | nil => rfl
  | cons x l ih => rw [applyDeltas_cons, ih, updateStock_ids]

theorem applyDeltas_getElem? (l : List (Nat × Int)) (ps : List Product) (i : Nat) :
    (applyDeltas ps l)[i]? =
      ps[i]?.map (fun p =>
        { p with stock_quantity := p.stock_quantity + stockDelta l p.id }) := by
  induction l generalizing ps with
  | nil =>
    simp only [applyDeltas_nil, stockDelta_nil, add_zero]
    cases ps[i]? <;> rfl
  | cons x l ih =>
    rw [applyDeltas_cons, ih, updateStock_getElem?, Option.map_map]
    cases hp : ps[i]? with
    | none => rfl
    | some p =>
      by_cases hid : p.id = x.1
      · simp [hid, stockDelta_cons, add_assoc]
      · have hb : (p.id == x.1) = false := by simp [hid]
        have hb2 : (x.1 == p.id) = false := by simp; exact fun hh => hid hh.symm
        simp [hb, hb2, hid, Ne.symm hid, stockDelta_cons]

theorem sumStock_cons (p : Product) (ps : List Product) :
    sumStock (p :: ps) = p.stock_quantity + sumStock ps := by
  simp [sumStock]

theorem sumStock_updateStock {ps : List Product} {pid : Nat} (d : Int)
    (hnd : (ps.map (fun q => q.id)).Nodup) (hmem : pid ∈ ps.map (fun q => q.id)) :
    sumStock (updateStock ps pid d) = sumStock ps + d := by
  induction ps with
  | nil => simp at hmem
  | cons p ps ih =>
    rw [List.map_cons] at hnd hmem
    rw [List.nodup_cons] at hnd
    by_cases hid : p.id = pid
    · have hnotin : pid ∉ ps.map (fun q => q.id) := hid ▸ hnd.1
      rw [updateStock_cons, if_pos (by simp [hid]), updateStock_of_not_mem d hnotin,
        sumStock_cons, sumStock_cons]
      show p.stock_quantity + d + sumStock ps = p.stock_quantity + sumStock ps + d
      omega
    · rcases List.mem_cons.mp hmem with hh | hh
      · exact absurd hh.symm hid
      · rw [updateStock_cons, if_neg (by simp; exact fun hx => hid hx), sumStock_cons,
          sumStock_cons, ih hnd.2 hh]
        omega

theorem sumStock_applyDeltas {l : List (Nat × Int)} {ps : List Product}
    (hnd : (ps.map (fun q => q.id)).Nodup)
    (hall : ∀ x ∈ l, x.1 ∈ ps.map (fun q => q.id)) :
    sumStock (applyDeltas ps l) = sumStock ps + (l.map (fun x => x.2)).sum := by
  induction l generalizing ps with
  | nil => simp [applyDeltas_nil]
  | cons x l ih =>
    have hids := updateStock_ids ps x.1 x.2
    rw [applyDeltas_cons,
      ih (by rw [hids]; exact hnd)
        (fun y hy => by rw [hids]; exact hall y (List.mem_cons_of_mem _ hy)),
      sumStock_updateStock x.2 hnd (hall x (List.mem_cons_self ..))]
    rw [List.map_cons, List.sum_cons]
    omega

/-- Replacing, in a list, every element that shares a key with the element
`find?` returns, by a new element satisfying the search predicate, makes
`find?` return the new element. -/
theorem find?_map_replace {α : Type} (key : α → Nat) (p : α → Bool) (a b : α)
    (l : List α) (hfind : l.find? p = some a) (hp : p b = true) :
    (l.map (fun x => if key x == key a then b else x)).find? p = some b := by
  induction l with
  | nil => simp at hfind
  | cons c l ih =>
    by_cases hc : key c = key a
    · rw [List.map_cons, if_pos (by simp [hc])]
      exact List.find?_cons_of_pos _ hp
    · rw [List.map_cons, if_neg (by simp [hc])]
      cases hpc : p c with
      | true =>
        rw [List.find?_cons_of_pos _ hpc] at hfind
        have : c = a := by injection hfind
        exact absurd (congrArg key this) hc
      | false =>
        rw [List.find?_cons_of_neg _ (by simp [hpc])] at hfind
        rw [List.find?_cons_of_neg _ (by simp [hpc])]
        exact ih hfind

theorem decrementStock_eq (ps : List Product) (items : List CartItem) :
    decrementStock ps items =
      applyDeltas ps (items.map (fun ci => (ci.product_id, -(ci.quantity : Int)))) := by
  unfold decrementStock applyDeltas
  rw [List.foldl_map]

theorem restoreStock_eq (ps : List Product) (items : List OrderItem)
    (hpres : ∀ it ∈ items, it.product_id ∈ ps.map (fun q => q.id)) :
    restoreStock ps items =
      applyDeltas ps (items.map (fun it => (it.product_id, (it.quantity : Int)))) := by
  induction items generalizing ps with
  | nil => rfl
  | cons it rest ih =>
    obtain ⟨p, hp⟩ := Option.isSome_iff_exists.mp
      (findProduct_isSome_of_mem (hpres it (List.mem_cons_self ..)))
    show (it :: rest).foldl _ ps = _
    rw [List.foldl_cons]
    simp only [hp]
    rw [List.map_cons, applyDeltas_cons]
    exact ih (updateStock ps it.product_id (it.quantity : Int))
      (fun x hx => by
        rw [updateStock_ids]
        exact hpres x (List.mem_cons_of_mem _ hx))

/-- Quantity of product `pid` that a list of order items adds back on
restoration. -/
def restoredQty (items : List OrderItem) (pid : Nat) : Int :=
  stockDelta (items.map (fun it => (it.product_id, (it.quantity : Int)))) pid

/-- Quantity of product `pid` ordered by a list of cart items. -/
def orderedQty (items : List CartItem) (pid : Nat) : Int :=
  stockDelta (items.map (fun ci => (ci.product_id, (ci.quantity : Int)))) pid

theorem stockDelta_decrement (items : List CartItem) (pid : Nat) :
    stockDelta (items.map (fun ci => (ci.product_id, -(ci.quantity : Int)))) pid =
      -(orderedQty items pid) := by
  induction items with
  | nil => simp [orderedQty, stockDelta_nil]
  | cons ci rest ih =>
    by_cases h : ci.product_id = pid <;>
      simp [orderedQty, stockDelta_cons, h, ih, List.map_cons] at * <;> omega

theorem restoredQty_snapshot (ps : List Product) (items : List CartItem) (pid : Nat) :
    restoredQty (items.map (snapshotItem ps)) pid = orderedQty items pid := by
  unfold restoredQty orderedQty
  rw [List.map_map]
  rfl

theorem sum_map_neg {α : Type} (l : List α) (f : α → Int) :
    (l.map (fun a => -(f a))).sum = -((l.map f).sum) := by
  induction l with
  | nil => simp
  | cons a l ih => simp [ih]; omega

/-- Variant of `find?_map_replace` where the replacement is a function of
the replaced element that does not affect the search predicate. -/
theorem find?_map_replace_fn {α : Type} (key : α → Nat) (p : α → Bool) (a : α) (g : α → α)
    (l : List α) (hfind : l.find? p = some a) (hpre : ∀ x, p (g x) = p x) :
    (l.map (fun x => if key x == key a then g x else x)).find? p = some (g a) := by
  induction l with
  | nil => simp at hfind
  | cons c l ih =>
    by_cases hc : key c = key a
    · rw [List.map_cons, if_pos (by simp [hc])]
      cases hpc : p c with
      | true =>
        rw [List.find?_cons_of_pos _ hpc] at hfind
        have hca : c = a := by injection hfind
        subst hca
        exact List.find?_cons_of_pos _ (by rw [hpre]; exact hpc)
      | false =>
        rw [List.find?_cons_of_neg _ (by simp [hpc])] at hfind
        rw [List.find?_cons_of_neg _ (by simp [hpre, hpc])]
        exact ih hfind
    · rw [List.map_cons, if_neg (by simp [hc])]
      cases hpc : p c with
      | true =>
        rw [List.find?_cons_of_pos _ hpc] at hfind
        have hca : c = a := by injection hfind
        exact absurd (congrArg key hca) hc
      | false =>
        rw [List.find?_cons_of_neg _ (by simp [hpc])] at hfind
        rw [List.find?_cons_of_neg _ (by simp [hpc])]
        exact ih hfind

theorem validateCartItems_eq_none_iff (ps : List Product) (items : List CartItem) :
    validateCartItems ps items = none ↔
      ∀ ci ∈ items, ∃ p, findProduct ps ci.product_id = some p ∧
        p.is_active = true ∧ p.can_order ci.quantity = true := by
  induction items with
  | nil => simp [validateCartItems]
  | cons ci rest ih =>
    simp only [validateCartItems]
    cases hf : findProduct ps ci.product_id with
    | none => simp [hf]
    | some p =>
      by_cases ha : p.is_active
      · by_cases hc : p.can_order ci.quantity
        · simp [ha, hc, ih, hf]
        · simp [ha, hc, hf]
      · simp [ha, hf]

theorem validateCartItems_shape (ps : List Product) (items : List CartItem)
    (hWF : ∀ ci ∈ items, (findProduct ps ci.product_id).isSome = true) :
    validateCartItems ps items = none ∨
      (∃ n, validateCartItems ps items = some (ApiError.productUnavailable n)) ∨
      (∃ n a, validateCartItems ps items = some (ApiError.insufficientStock n a)) := by
  induction items with
  | nil => left; rfl
  | cons ci rest ih =>
    obtain ⟨p, hp⟩ := Option.isSome_iff_exists.mp (hWF ci (List.mem_cons_self ..))
    simp only [validateCartItems, hp]
    by_cases ha : p.is_active
    · by_cases hc : p.can_order ci.quantity
      · simpa [ha, hc] using ih (fun x hx => hWF x (List.mem_cons_of_mem _ hx))
      · right; right
        exact ⟨p.name, p.stock_quantity, by simp [ha, hc]⟩
    · right; left
      exact ⟨p.name, by simp [ha]⟩

/-- Inversion of a successful checkout: recover the cart, the validation
facts, and explicit descriptions of the returned order and the committed
state. -/
theorem create_ok_inversion {s : State} {uid : Nat} {req : CheckoutRequest} {onum : String}
    {s1 : State} {order : Order}
    (h : create_order_from_cart s uid req onum = (s1, Except.ok order)) :
    ∃ cart, s.carts.find? (fun c => c.user_id == uid) = some cart ∧
      cart.is_empty = false ∧
      validateCartItems s.products cart.items = none ∧
      order = createdOrder s uid req onum cart ∧
      s1 = { s with
        products := decrementStock s.products cart.items
        carts := emptyUserCart s.carts cart
        orders := s.orders ++ [order]
        nextOrderId := s.nextOrderId + 1 } := by
  unfold create_order_from_cart at h
  split at h
  · simp at h
  · next cart hfc =>
    split at h
    · simp at h
    · next hne =>
      split at h
      · simp at h
      · next hv =>
        have h1 := congrArg Prod.fst h
        have h2 := congrArg Prod.snd h
        simp only at h1 h2
        refine ⟨cart, hfc, by simpa using hne, hv, ?_, ?_⟩
        · injection h2 with h2; exact h2.symm
        · injection h2 with h2; rw [← h1, h2]

/-! ### Concrete fixture: the spec's example scenario

A catalog with one product priced 29.99 with stock 100, a cart holding two
units of it, and the states this scenario steps through. -/

def exProduct : Product :=
  { id := 1, name := "Widget", sku := "SKU-1", price := 2999, stock_quantity := 100,
    is_active := true }

def exCart : Cart :=
  { id := 1, user_id := 1, items := [{ product_id := 1, quantity := 2, unit_price := 2999 }] }

def exState : State :=
  { products := [exProduct], carts := [exCart], orders := [], nextOrderId := 1 }

def exReq : CheckoutRequest :=
  { shipping_address := "123 Test St, City", billing_address := none, phone := none,
    notes := none, payment_method := "credit_card" }

/-- The order the example checkout creates. -/
def exOrder : Order :=
  { id := 1, order_number := "ORD-1", user_id := 1, status := OrderStatus.pending,
    payment_status := PaymentStatus.pending, subtotal := 5998, tax_amount := 600,
    shipping_amount := 1000, discount_amount := 0, total_amount := 7598,
    shipping_address := "123 Test St, City", billing_address := none, phone := none,
    notes := none, payment_method := some "credit_card", payment_transaction_id := none,
    items := [{ product_id := 1, quantity := 2, unit_price := 2999, total_price := 5998,
                product_name := "Widget", product_sku := "SKU-1" }],
    shipped_at := none, delivered_at := none }

/-- The state after the example checkout: stock 98, cart emptied. -/
def exPost : State :=
  { products := [{ exProduct with stock_quantity := 98 }],
    carts := [{ id := 1, user_id := 1, items := [] }],
    orders := [exOrder], nextOrderId := 2 }

def gwFail : PaymentResponse :=
  { transaction_id := "txn_1", status := PaymentStatus.failed, message := "Card declined" }

/-- The example order after a failed payment attempt. -/
def exOrderFailed : Order :=
  { exOrder with
    payment_status := PaymentStatus.failed, payment_transaction_id := some "txn_1" }

/-- The state after the failed payment: stock restored to 100. -/
def exFailed : State :=
  { products := [exProduct],
    carts := [{ id := 1, user_id := 1, items := [] }],
    orders := [exOrderFailed], nextOrderId := 2 }

/-- A state with no cart for user 1. -/
def noCartState : State :=
  { products := [], carts := [], orders := [], nextOrderId := 1 }

/-! ### The claims -/

/-- The transition table as the spec states it: PENDING → {PAID, CANCELLED};
PAID → {SHIPPED, CANCELLED}; SHIPPED → {DELIVERED}; DELIVERED → {};
CANCELLED → {}. -/
def specTransitionPairs : List (OrderStatus × OrderStatus) :=
  [(OrderStatus.pending, OrderStatus.paid), (OrderStatus.pending, OrderStatus.cancelled),
   (OrderStatus.paid, OrderStatus.shipped), (OrderStatus.paid, OrderStatus.cancelled),
   (OrderStatus.shipped, OrderStatus.delivered)]

theorem transition_table_spec (c d : OrderStatus) :
    validate_status_transition c d = true ↔ (c, d) ∈ specTransitionPairs := by
  cases c <;> cases d <;> decide

theorem applyOtherUpdates_status (o : Order) (upd : OrderUpdate) :
    (applyOtherUpdates o upd).status = o.status := by
  unfold applyOtherUpdates
  repeat' split <;> try rfl

theorem applyOtherUpdates_shipped_at (o : Order) (upd : OrderUpdate) :
    (applyOtherUpdates o upd).shipped_at = o.shipped_at := by
  unfold applyOtherUpdates
  repeat' split <;> try rfl

theorem applyOtherUpdates_delivered_at (o : Order) (upd : OrderUpdate) :
    (applyOtherUpdates o upd).delivered_at = o.delivered_at := by
  unfold applyOtherUpdates
  repeat' split <;> try rfl

/-- C4: a requested status change via `update_order_status` succeeds exactly
when the pair (current, new) is in the table PENDING→{PAID, CANCELLED},
PAID→{SHIPPED, CANCELLED}, SHIPPED→{DELIVERED}, DELIVERED→{}, CANCELLED→{};
any other pair is rejected as an InvalidTransition error with the state (and
so the order's status) unchanged; a transition to SHIPPED sets `shipped_at`
and a transition to DELIVERED sets `delivered_at`. -/
theorem C4_update_order_status (s : State) (order_id : Nat) (upd : OrderUpdate)
    (now : Nat) (order : Order) (dst : OrderStatus)
    (hfind : s.orders.find? (fun o => o.id == order_id) = some order)
    (hst : upd.status = some dst) :
    (validate_status_transition order.status dst = true ↔
      (order.status, dst) ∈ specTransitionPairs) ∧
    (validate_status_transition order.status dst = false →
      update_order_status s order_id upd now =
        (s, Except.error (ApiError.invalidTransition order.status dst))) ∧
    (validate_status_transition order.status dst = true →
      ∃ o2, update_order_status s order_id upd now = (setOrder s o2, Except.ok o2) ∧
        o2.status = dst ∧
        (dst = OrderStatus.shipped → o2.shipped_at = some now) ∧
        (dst = OrderStatus.delivered → o2.delivered_at = some now)) := by
  refine ⟨transition_table_spec order.status dst, ?_, ?_⟩
  · intro hv
    simp [update_order_status, hfind, hst, hv]
  · intro hv
    simp only [update_order_status, hfind, hst, hv, Bool.not_true, Bool.false_eq_true,
      if_false]
    refine ⟨_, rfl, ?_, ?_, ?_⟩
    · rw [applyOtherUpdates_status]
    · intro h
      rw [applyOtherUpdates_shipped_at]
      simp [h]
    · intro h
      rw [applyOtherUpdates_delivered_at]
      simp [h]

/-- C4 witness: in the post-checkout state, the admin transition
PENDING → PAID on order 1 at time 42. -/
theorem C4_witness :
    (validate_status_transition exOrder.status OrderStatus.paid = true ↔
      (exOrder.status, OrderStatus.paid) ∈ specTransitionPairs) ∧
    (validate_status_transition exOrder.status OrderStatus.paid = false →
      update_order_status exPost 1 { status := some OrderStatus.paid } 42 =
        (exPost, Except.error (ApiError.invalidTransition exOrder.status OrderStatus.paid))) ∧
    (validate_status_transition exOrder.status OrderStatus.paid = true →
      ∃ o2, update_order_status exPost 1 { status := some OrderStatus.paid } 42 =
          (setOrder exPost o2, Except.ok o2) ∧
        o2.status = OrderStatus.paid ∧
        (OrderStatus.paid = OrderStatus.shipped → o2.shipped_at = some 42) ∧
        (OrderStatus.paid = OrderStatus.delivered → o2.delivered_at = some 42)) :=
  C4_update_order_status exPost 1 { status := some OrderStatus.paid } 42 exOrder
    OrderStatus.paid (by decide) rfl

/-- C5: every order created by `create_order_from_cart` satisfies
`total_amount = subtotal + tax_amount + shipping_amount - discount_amount`,
with `tax_amount` equal to `subtotal * 0.10` rounded to 2 decimal places
(here: `quantizeTenthCents subtotal`, since `subtotal * 0.10` is exactly
`subtotal` tenth-of-cents), `shipping_amount = 10.00` exactly when
`subtotal < 100.00`, and `discount_amount = 0`. -/
theorem C5_order_totals (s : State) (uid : Nat) (req : CheckoutRequest) (onum : String)
    (s1 : State) (order : Order)
    (h : create_order_from_cart s uid req onum = (s1, Except.ok order)) :
    order.total_amount =
      order.subtotal + order.tax_amount + order.shipping_amount - order.discount_amount ∧
    order.tax_amount = quantizeTenthCents order.subtotal ∧
    order.shipping_amount = (if order.subtotal < 10000 then 1000 else 0) ∧
    order.discount_amount = 0 := by
  obtain ⟨cart, _, _, _, horder, _⟩ := create_ok_inversion h
  subst horder
  refine ⟨?_, rfl, rfl, rfl⟩
  show quantizeTenthCents _ = _
  unfold createdOrder quantizeTenthCents
  by_cases hlt : cart.total_amount < 10000 <;> simp [hlt] <;> omega

/-- C5 witness: the spec's example — a cart of 2 units at 29.99 yields
subtotal 59.98, tax 6.00, shipping 10.00, total 75.98, and the invariant
holds. -/
theorem C5_witness :
    create_order_from_cart exState 1 exReq "ORD-1" = (exPost, Except.ok exOrder) ∧
    exOrder.subtotal = 5998 ∧ exOrder.tax_amount = 600 ∧
    exOrder.shipping_amount = 1000 ∧ exOrder.total_amount = 7598 ∧
    (exOrder.total_amount =
      exOrder.subtotal + exOrder.tax_amount + exOrder.shipping_amount -
        exOrder.discount_amount ∧
    exOrder.tax_amount = quantizeTenthCents exOrder.subtotal ∧
    exOrder.shipping_amount = (if exOrder.subtotal < 10000 then 1000 else 0) ∧
    exOrder.discount_amount = 0) :=
  ⟨rfl, rfl, rfl, rfl, rfl,
    C5_order_totals exState 1 exReq "ORD-1" exPost exOrder rfl⟩

/-- C6 counterexample: for a user with no cart, `clear_cart` does fail — it
returns the `Cart not found` error rather than an empty-cart view, refuting
"never fails ... when the user has no cart it does not raise an error". -/
theorem C6_counterexample :
    clear_cart noCartState 1 = (noCartState, Except.error ApiError.cartNotFound) := rfl

/-- C6 (amended): when the user has a cart, `clear_cart` deletes all its
items (the cart row survives), touches nothing else, and is idempotent;
when the user has no cart it raises a `Cart not found` error instead of
returning an empty-cart view. -/
theorem C6_clear_cart (s : State) (uid : Nat) :
    (∀ cart, s.carts.find? (fun c => c.user_id == uid) = some cart →
      ∃ s2, clear_cart s uid = (s2, Except.ok { cart with items := [] }) ∧
        s2.carts.find? (fun c => c.user_id == uid) = some { cart with items := [] } ∧
        s2.carts.length = s.carts.length ∧
        s2.products = s.products ∧ s2.orders = s.orders ∧
        clear_cart s2 uid = (s2, Except.ok { cart with items := [] })) ∧
    (s.carts.find? (fun c => c.user_id == uid) = none →
      clear_cart s uid = (s, Except.error ApiError.cartNotFound)) := by
  constructor
  · intro cart hfind
    have hfind2 :
        ((s.carts.map (fun c => if c.id == cart.id then { c with items := [] } else c)).find?
          (fun c => c.user_id == uid)) = some { cart with items := [] } :=
      find?_map_replace_fn (fun c => c.id) _ cart (fun c => { c with items := [] })
        s.carts hfind (fun x => rfl)
    refine ⟨{ s with carts := s.carts.map (fun c => if c.id == cart.id then { c with items := [] } else c) }, ?_, ?_, ?_, rfl, rfl, ?_⟩
    · simp only [clear_cart, hfind]
    · exact hfind2
    · exact List.length_map ..
    · have hmaps :
          ((s.carts.map (fun c => if c.id == cart.id then { c with items := [] } else c)).map
            (fun c => if c.id == cart.id then { c with items := [] } else c)) =
          s.carts.map (fun c => if c.id == cart.id then { c with items := [] } else c) := by
        rw [List.map_map]
        refine List.map_congr_left (fun c _ => ?_)
        by_cases hc : c.id = cart.id <;> simp [Function.comp, hc]
      simp only [clear_cart, hfind2, hfind, hmaps]
  · intro hfind
    simp [clear_cart, hfind]

/-- C6 witness: clearing the example user's cart empties it, leaves
products and orders alone, and is idempotent. -/
theorem C6_witness :
    ∃ s2, clear_cart exState 1 = (s2, Except.ok { exCart with items := [] }) ∧
      s2.carts.find? (fun c => c.user_id == 1) = some { exCart with items := [] } ∧
      s2.carts.length = exState.carts.length ∧
      s2.products = exState.products ∧ s2.orders = exState.orders ∧
      clear_cart s2 1 = (s2, Except.ok { exCart with items := [] }) :=
  (C6_clear_cart exState 1).1 exCart (by decide)

/-- C7: `cancel_order` fails with an InvalidState error exactly when the
order's status is outside {PENDING, PAID}; on success it adds each
OrderItem's quantity back to the corresponding product's stock and sets the
status to CANCELLED, leaving every other order field — in particular
`payment_status` and the monetary amounts — unchanged (the conclusion
returns the order as a record update touching only `status`). -/
theorem C7_cancel_order (s : State) (uid oid : Nat) (order : Order)
    (hfind : s.orders.find? (fun o => o.id == oid && o.user_id == uid) = some order)
    (hpres : ∀ it ∈ order.items, it.product_id ∈ s.products.map (fun q => q.id)) :
    (order.status ≠ OrderStatus.pending ∧ order.status ≠ OrderStatus.paid →
      cancel_order s uid oid = (s, Except.error ApiError.orderCannotBeCancelled)) ∧
    (order.status = OrderStatus.pending ∨ order.status = OrderStatus.paid →
      ∃ s2, cancel_order s uid oid =
          (s2, Except.ok { order with status := OrderStatus.cancelled }) ∧
        s2.orders.find? (fun o => o.id == oid && o.user_id == uid) =
          some { order with status := OrderStatus.cancelled } ∧
        s2.carts = s.carts ∧
        (∀ i : Nat, s2.products[i]? = s.products[i]?.map (fun p =>
          { p with stock_quantity := p.stock_quantity + restoredQty order.items p.id }))) := by
  constructor
  · intro ⟨h1, h2⟩
    have hcc : order.can_be_cancelled = false := by
      simp [Order.can_be_cancelled, h1, h2]
    simp [cancel_order, hfind, hcc]
  · intro h
    have hcc : order.can_be_cancelled = true := by
      rcases h with h | h <;> simp [Order.can_be_cancelled, h]
    have hp2 : (fun o : Order => o.id == oid && o.user_id == uid)
        { order with status := OrderStatus.cancelled } = true := by
      simpa using List.find?_some hfind
    refine ⟨{ setOrder s { order with status := OrderStatus.cancelled } with products := restoreStock s.products order.items }, ?_, ?_, rfl, ?_⟩
    · simp [cancel_order, hfind, hcc]
    · exact find?_map_replace (fun o => o.id) _ order _ s.orders hfind hp2
    · intro i
      show (restoreStock s.products order.items)[i]? = _
      rw [restoreStock_eq s.products order.items hpres, applyDeltas_getElem?]
      rfl

/-- A PAID order with a COMPLETED payment, and the state holding it. -/
def exOrderPaid : Order :=
  { exOrder with
    status := OrderStatus.paid, payment_status := PaymentStatus.completed,
    payment_transaction_id := some "txn_2" }

def exStatePaid : State :=
  { exPost with orders := [exOrderPaid] }

/-- C7 witness: cancelling the PAID example order restores the stock and
flips only the status to CANCELLED (payment_status stays COMPLETED). -/
theorem C7_witness :
    (exOrderPaid.status ≠ OrderStatus.pending ∧ exOrderPaid.status ≠ OrderStatus.paid →
      cancel_order exStatePaid 1 1 =
        (exStatePaid, Except.error ApiError.orderCannotBeCancelled)) ∧
    (exOrderPaid.status = OrderStatus.pending ∨ exOrderPaid.status = OrderStatus.paid →
      ∃ s2, cancel_order exStatePaid 1 1 =
          (s2, Except.ok { exOrderPaid with status := OrderStatus.cancelled }) ∧
        s2.orders.find? (fun o => o.id == 1 && o.user_id == 1) =
          some { exOrderPaid with status := OrderStatus.cancelled } ∧
        s2.carts = exStatePaid.carts ∧
        (∀ i : Nat, s2.products[i]? = exStatePaid.products[i]?.map (fun p =>
          { p with stock_quantity := p.stock_quantity + restoredQty exOrderPaid.items p.id }))) :=
  C7_cancel_order exStatePaid 1 1 exOrderPaid rfl (by decide)

/-- C8: `process_payment` raises an InvalidState error, commits nothing and
leaves the state unchanged whenever the order's status is not PENDING or its
payment_status is not PENDING (for any gateway response — the gateway is
never consulted); when both guards pass, the first committed state already
has payment_status = PROCESSING persisted on the order, before any use of
the gateway response. -/
theorem C8_process_payment_guards (s : State) (uid oid : Nat) (order : Order)
    (gw : PaymentResponse)
    (hfind : s.orders.find? (fun o => o.id == oid && o.user_id == uid) = some order) :
    (order.status ≠ OrderStatus.pending →
      process_payment s uid oid gw = ([], Except.error ApiError.cannotBePaid) ∧
      process_payment_final s uid oid gw = (s, Except.error ApiError.cannotBePaid)) ∧
    (order.status = OrderStatus.pending → order.payment_status ≠ PaymentStatus.pending →
      process_payment s uid oid gw = ([], Except.error ApiError.paymentAlreadyProcessed) ∧
      process_payment_final s uid oid gw =
        (s, Except.error ApiError.paymentAlreadyProcessed)) ∧
    (order.status = OrderStatus.pending → order.payment_status = PaymentStatus.pending →
      (process_payment s uid oid gw).1.head? =
        some (setOrder s { order with payment_status := PaymentStatus.processing }) ∧
      (setOrder s { order with payment_status := PaymentStatus.processing }).orders.find?
          (fun o => o.id == oid && o.user_id == uid) =
        some { order with payment_status := PaymentStatus.processing }) := by
  refine ⟨?_, ?_, ?_⟩
  · intro h
    constructor <;> simp [process_payment, process_payment_final, hfind, h]
  · intro hst h
    constructor <;> simp [process_payment, process_payment_final, hfind, hst, h]
  · intro hst hps
    constructor
    · cases hgw : gw.status <;> simp [process_payment, hfind, hst, hps, hgw]
    · have hp2 : (fun o : Order => o.id == oid && o.user_id == uid)
          { order with payment_status := PaymentStatus.processing } = true := by
        simpa using List.find?_some hfind
      exact find?_map_replace (fun o => o.id) _ order _ s.orders hfind hp2

/-- C8 witness: on the freshly created example order (PENDING/PENDING) the
guards pass and the first commit persists PROCESSING; on the paid example
order the guard refuses for any gateway response. -/
theorem C8_witness :
    (exOrder.status ≠ OrderStatus.pending →
      process_payment exPost 1 1 gwFail = ([], Except.error ApiError.cannotBePaid) ∧
      process_payment_final exPost 1 1 gwFail = (exPost, Except.error ApiError.cannotBePaid)) ∧
    (exOrder.status = OrderStatus.pending →
        exOrder.payment_status ≠ PaymentStatus.pending →
      process_payment exPost 1 1 gwFail = ([], Except.error ApiError.paymentAlreadyProcessed) ∧
      process_payment_final exPost 1 1 gwFail =
        (exPost, Except.error ApiError.paymentAlreadyProcessed)) ∧
    (exOrder.status = OrderStatus.pending → exOrder.payment_status = PaymentStatus.pending →
      (process_payment exPost 1 1 gwFail).1.head? =
        some (setOrder exPost { exOrder with payment_status := PaymentStatus.processing }) ∧
      (setOrder exPost { exOrder with payment_status := PaymentStatus.processing }).orders.find?
          (fun o => o.id == 1 && o.user_id == 1) =
        some { exOrder with payment_status := PaymentStatus.processing }) :=
  C8_process_payment_guards exPost 1 1 exOrder gwFail rfl

/-- C10: after a failed payment attempt (which leaves the order PENDING with
payment_status FAILED), every later `process_payment` call on that order —
whatever the gateway would answer — raises the already-processed InvalidState
error, commits nothing and leaves the state unchanged, so such an order can
never become PAID through `process_payment`. -/
theorem C10_failed_payment_cannot_retry (s : State) (uid oid : Nat) (order : Order)
    (gw gw2 : PaymentResponse) (s2 : State) (r : Except ApiError Order)
    (hfind : s.orders.find? (fun o => o.id == oid && o.user_id == uid) = some order)
    (hst : order.status = OrderStatus.pending)
    (hps : order.payment_status = PaymentStatus.pending)
    (hgw : gw.status = PaymentStatus.failed)
    (hrun : process_payment_final s uid oid gw = (s2, r)) :
    process_payment s2 uid oid gw2 = ([], Except.error ApiError.paymentAlreadyProcessed) ∧
    process_payment_final s2 uid oid gw2 =
      (s2, Except.error ApiError.paymentAlreadyProcessed) := by
  have hp1 : (fun o : Order => o.id == oid && o.user_id == uid)
      { order with payment_status := PaymentStatus.processing } = true := by
    simpa using List.find?_some hfind
  have hfind1 := find?_map_replace (fun o => o.id) _ order
    { order with payment_status := PaymentStatus.processing } s.orders hfind hp1
  have hrun' : process_payment s uid oid gw =
      ([setOrder s { order with payment_status := PaymentStatus.processing },
        { setOrder (setOrder s { order with payment_status := PaymentStatus.processing })
            { order with
              payment_status := gw.status
              payment_transaction_id := some gw.transaction_id
              status := OrderStatus.pending } with
          products := restoreStock
            (setOrder s { order with payment_status := PaymentStatus.processing }).products
            order.items }],
        Except.error (ApiError.paymentFailed gw.message)) := by
    simp [process_payment, hfind, hst, hps, hgw]
  have hs2 : s2 = { setOrder (setOrder s { order with payment_status := PaymentStatus.processing })
      { order with
        payment_status := gw.status
        payment_transaction_id := some gw.transaction_id
        status := OrderStatus.pending } with
      products := restoreStock
        (setOrder s { order with payment_status := PaymentStatus.processing }).products
        order.items } := by
    have := congrArg Prod.fst hrun
    rw [process_payment_final, hrun'] at this
    simpa using this.symm
  have hfind2 : s2.orders.find? (fun o => o.id == oid && o.user_id == uid) =
      some { order with
        payment_status := gw.status
        payment_transaction_id := some gw.transaction_id
        status := OrderStatus.pending } := by
    rw [hs2]
    exact find?_map_replace (fun o => o.id) _
      { order with payment_status := PaymentStatus.processing }
      { order with
        payment_status := gw.status
        payment_transaction_id := some gw.transaction_id
        status := OrderStatus.pending }
      _ hfind1 (by simpa using List.find?_some hfind)
  constructor <;>
    simp [process_payment, process_payment_final, hfind2, hgw]

/-- C10 witness: after the example failed payment, a retry with the same
gateway response is refused as already processed and changes nothing. -/
theorem C10_witness :
    process_payment exFailed 1 1 gwFail =
      ([], Except.error ApiError.paymentAlreadyProcessed) ∧
    process_payment_final exFailed 1 1 gwFail =
      (exFailed, Except.error ApiError.paymentAlreadyProcessed) :=
  C10_failed_payment_cannot_retry exPost 1 1 exOrder gwFail gwFail exFailed
    (Except.error (ApiError.paymentFailed "Card declined")) rfl rfl rfl rfl rfl

/-- C1: for every user with a non-empty cart whose items all pass
validation, `create_order_from_cart` returns an order in PENDING/PENDING
with one snapshot OrderItem per cart item copying the product's name and
sku and the cart item's unit price; it empties the cart (the cart row
survives), and decrements each product's stock by exactly the ordered
quantity, so (with unique product ids) the total pre-stock minus total
post-stock equals the total ordered quantity. -/
theorem C1_checkout_success (s : State) (uid : Nat) (req : CheckoutRequest) (onum : String)
    (cart : Cart)
    (hfind : s.carts.find? (fun c => c.user_id == uid) = some cart)
    (hne : cart.is_empty = false)
    (hval : validateCartItems s.products cart.items = none) :
    ∃ s1 order, create_order_from_cart s uid req onum = (s1, Except.ok order) ∧
      order.status = OrderStatus.pending ∧
      order.payment_status = PaymentStatus.pending ∧
      order.items = cart.items.map (snapshotItem s.products) ∧
      (∀ ci ∈ cart.items, ∀ p, findProduct s.products ci.product_id = some p →
        snapshotItem s.products ci =
          { product_id := ci.product_id, quantity := ci.quantity,
            unit_price := ci.unit_price, total_price := ci.quantity * ci.unit_price,
            product_name := p.name, product_sku := p.sku }) ∧
      s1.carts.find? (fun c => c.user_id == uid) = some { cart with items := [] } ∧
      s1.carts.length = s.carts.length ∧
      s1.products.length = s.products.length ∧
      (∀ i : Nat, s1.products[i]? = s.products[i]?.map (fun p =>
        { p with stock_quantity := p.stock_quantity - orderedQty cart.items p.id })) ∧
      ((s.products.map (fun q => q.id)).Nodup →
        sumStock s.products - sumStock s1.products =
          (cart.items.map (fun ci => (ci.quantity : Int))).sum) := by
  have hrun : create_order_from_cart s uid req onum =
      ({ s with
          products := decrementStock s.products cart.items
          carts := emptyUserCart s.carts cart
          orders := s.orders ++ [createdOrder s uid req onum cart]
          nextOrderId := s.nextOrderId + 1 },
        Except.ok (createdOrder s uid req onum cart)) := by
    simp [create_order_from_cart, hfind, hne, hval]
  have hmem_ids : ∀ ci ∈ cart.items, ci.product_id ∈ s.products.map (fun q => q.id) := by
    intro ci hci
    obtain ⟨p, hp, -, -⟩ :=
      (validateCartItems_eq_none_iff s.products cart.items).mp hval ci hci
    exact findProduct_mem_ids hp
  refine ⟨_, _, hrun, rfl, rfl, rfl, ?_, ?_, ?_, ?_, ?_, ?_⟩
  · intro ci _ p hp
    simp [snapshotItem, CartItem.subtotal, hp]
  · show (emptyUserCart s.carts cart).find? _ = _
    exact find?_map_replace_fn (fun c => c.id) _ cart (fun c => { c with items := [] })
      s.carts hfind (fun x => rfl)
  · exact List.length_map ..
  · show (decrementStock s.products cart.items).length = _
    rw [decrementStock_eq, applyDeltas_length]
  · intro i
    show (decrementStock s.products cart.items)[i]? = _
    rw [decrementStock_eq, applyDeltas_getElem?]
    cases s.products[i]? with
    | none => rfl
    | some p => simp [stockDelta_decrement, sub_eq_add_neg]
  · intro hnd
    show sumStock s.products - sumStock (decrementStock s.products cart.items) = _
    rw [decrementStock_eq,
      sumStock_applyDeltas hnd
        (by
          intro x hx
          rcases List.mem_map.mp hx with ⟨ci, hci, rfl⟩
          exact hmem_ids ci hci),
      List.map_map]
    have : ((cart.items.map fun ci => (ci.product_id, -(ci.quantity : Int))).map
        (fun x => x.2)).sum = -((cart.items.map fun ci => (ci.quantity : Int)).sum) := by
      rw [List.map_map]
      exact sum_map_neg cart.items (fun ci => (ci.quantity : Int))
    rw [List.map_map] at this
    rw [show ((fun x : Nat × Int => x.2) ∘ fun ci : CartItem =>
        (ci.product_id, -(ci.quantity : Int))) = fun ci : CartItem => -(ci.quantity : Int)
      from rfl] at this ⊢
    rw [this]
    omega

/-- C1 witness: the example checkout (cart of 2 units at 29.99, stock 100)
creates a PENDING/PENDING order with one snapshot item, empties the cart
and moves stock from 100 to 98. -/
theorem C1_witness :
    ∃ s1 order, create_order_from_cart exState 1 exReq "ORD-1" = (s1, Except.ok order) ∧
      order.status = OrderStatus.pending ∧
      order.payment_status = PaymentStatus.pending ∧
      order.items = exCart.items.map (snapshotItem exState.products) ∧
      (∀ ci ∈ exCart.items, ∀ p, findProduct exState.products ci.product_id = some p →
        snapshotItem exState.products ci =
          { product_id := ci.product_id, quantity := ci.quantity,
            unit_price := ci.unit_price, total_price := ci.quantity * ci.unit_price,
            product_name := p.name, product_sku := p.sku }) ∧
      s1.carts.find? (fun c => c.user_id == 1) = some { exCart with items := [] } ∧
      s1.carts.length = exState.carts.length ∧
      s1.products.length = exState.products.length ∧
      (∀ i : Nat, s1.products[i]? = exState.products[i]?.map (fun p =>
        { p with stock_quantity := p.stock_quantity - orderedQty exCart.items p.id })) ∧
      ((exState.products.map (fun q => q.id)).Nodup →
        sumStock exState.products - sumStock s1.products =
          (exCart.items.map (fun ci => (ci.quantity : Int))).sum) :=
  C1_checkout_success exState 1 exReq "ORD-1" exCart rfl rfl rfl

/-- C2: if any cart item's product is inactive or cannot cover the ordered
quantity, `create_order_from_cart` fails with a ProductUnavailable or
InsufficientStock error and returns the state unchanged — no stock
mutation, no persisted order, no removed cart item. -/
theorem C2_checkout_all_or_nothing (s : State) (uid : Nat) (req : CheckoutRequest)
    (onum : String) (cart : Cart)
    (hfind : s.carts.find? (fun c => c.user_id == uid) = some cart)
    (hWF : ∀ ci ∈ cart.items, (findProduct s.products ci.product_id).isSome = true)
    (hfail : ∃ ci ∈ cart.items, ∃ p, findProduct s.products ci.product_id = some p ∧
      (p.is_active = false ∨ p.can_order ci.quantity = false)) :
    ∃ e, create_order_from_cart s uid req onum = (s, Except.error e) ∧
      ((∃ n, e = ApiError.productUnavailable n) ∨
        (∃ n a, e = ApiError.insufficientStock n a)) := by
  obtain ⟨ci, hci, p, hp, hbad⟩ := hfail
  have hne : cart.is_empty = false := by
    cases hitems : cart.items with
    | nil => rw [hitems] at hci; simp at hci
    | cons a l => simp [Cart.is_empty, hitems]
  have hv_ne : validateCartItems s.products cart.items ≠ none := by
    intro hv
    obtain ⟨q, hq, hact, hcan⟩ :=
      (validateCartItems_eq_none_iff s.products cart.items).mp hv ci hci
    rw [hp] at hq
    injection hq with hq
    subst hq
    rcases hbad with hb | hb
    · rw [hact] at hb; cases hb
    · rw [hcan] at hb; cases hb
  rcases validateCartItems_shape s.products cart.items hWF with hv | ⟨n, hv⟩ | ⟨n, a, hv⟩
  · exact absurd hv hv_ne
  · exact ⟨ApiError.productUnavailable n,
      by simp [create_order_from_cart, hfind, hne, hv], Or.inl ⟨n, rfl⟩⟩
  · exact ⟨ApiError.insufficientStock n a,
      by simp [create_order_from_cart, hfind, hne, hv], Or.inr ⟨n, a, rfl⟩⟩

/-- The example catalog with the product deactivated. -/
def exStateInactive : State :=
  { exState with products := [{ exProduct with is_active := false }] }

/-- C2 witness: checking out the example cart while its product is inactive
fails with ProductUnavailable and leaves the state untouched. -/
theorem C2_witness :
    ∃ e, create_order_from_cart exStateInactive 1 exReq "ORD-1" =
        (exStateInactive, Except.error e) ∧
      ((∃ n, e = ApiError.productUnavailable n) ∨
        (∃ n a, e = ApiError.insufficientStock n a)) :=
  C2_checkout_all_or_nothing exStateInactive 1 exReq "ORD-1" exCart rfl (by decide)
    ⟨{ product_id := 1, quantity := 2, unit_price := 2999 }, by decide,
      { exProduct with is_active := false }, by decide, Or.inl rfl⟩

theorem restoredQty_cons (it : OrderItem) (rest : List OrderItem) (pid : Nat) :
    restoredQty (it :: rest) pid =
      (if it.product_id == pid then (it.quantity : Int) else 0) + restoredQty rest pid := by
  rw [restoredQty, List.map_cons, stockDelta_cons]
  rfl

theorem restoredQty_nonneg (items : List OrderItem) (pid : Nat) :
    0 ≤ restoredQty items pid := by
  induction items with
  | nil => simp [restoredQty, stockDelta_nil]
  | cons it rest ih =>
    rw [restoredQty_cons]
    by_cases h : it.product_id = pid <;> simp [h] <;> omega

theorem restoredQty_pos (items : List OrderItem) (pid : Nat)
    (hq : ∀ it ∈ items, 0 < it.quantity)
    (hmem : ∃ it ∈ items, it.product_id = pid) : 0 < restoredQty items pid := by
  induction items with
  | nil =>
    obtain ⟨it, h, -⟩ := hmem
    simp at h
  | cons it rest ih =>
    rw [restoredQty_cons]
    have hrest0 : 0 ≤ restoredQty rest pid := restoredQty_nonneg rest pid
    obtain ⟨it0, hit0, hpid⟩ := hmem
    rcases List.mem_cons.mp hit0 with h0 | h0
    · subst h0
      have hq0 := hq it0 (List.mem_cons_self ..)
      simp [hpid]
      omega
    · have hpos := ih (fun x hx => hq x (List.mem_cons_of_mem _ hx)) ⟨it0, h0, hpid⟩
      by_cases hh : it.product_id = pid <;> simp [hh] <;> omega

/-- Evaluation of `process_payment` on a PENDING/PENDING order when the
gateway answers FAILED: the method commits the PROCESSING state, then the
compensated state (stock restored, status PENDING, payment_status from the
gateway), and raises `PaymentFailed` with the gateway's message. -/
theorem process_payment_failed_eq (s : State) (uid oid : Nat) (order : Order)
    (gw : PaymentResponse)
    (hfind : s.orders.find? (fun o => o.id == oid && o.user_id == uid) = some order)
    (hst : order.status = OrderStatus.pending)
    (hps : order.payment_status = PaymentStatus.pending)
    (hgw : gw.status = PaymentStatus.failed) :
    process_payment s uid oid gw =
      ([setOrder s { order with payment_status := PaymentStatus.processing },
        { setOrder (setOrder s { order with payment_status := PaymentStatus.processing })
            { order with
              payment_status := gw.status
              payment_transaction_id := some gw.transaction_id
              status := OrderStatus.pending } with
          products := restoreStock s.products order.items }],
        Except.error (ApiError.paymentFailed gw.message)) := by
  simp [process_payment, setOrder, hfind, hst, hps, hgw]

/-- C3: on a PENDING/PENDING order, a FAILED gateway response makes
`process_payment` add back each OrderItem's quantity to the corresponding
product's stock, set the order's status to PENDING and payment_status to
FAILED, commit both intermediate states, and only then raise the
PaymentFailed error carrying the gateway's message; when the order was
produced by `create_order_from_cart`, every product's stock is restored
exactly to its pre-order level. -/
theorem C3_payment_failure (s : State) (uid oid : Nat) (order : Order)
    (gw : PaymentResponse)
    (hfind : s.orders.find? (fun o => o.id == oid && o.user_id == uid) = some order)
    (hst : order.status = OrderStatus.pending)
    (hps : order.payment_status = PaymentStatus.pending)
    (hgw : gw.status = PaymentStatus.failed)
    (hpres : ∀ it ∈ order.items, it.product_id ∈ s.products.map (fun q => q.id)) :
    ∃ s1 s2, process_payment s uid oid gw =
        ([s1, s2], Except.error (ApiError.paymentFailed gw.message)) ∧
      process_payment_final s uid oid gw =
        (s2, Except.error (ApiError.paymentFailed gw.message)) ∧
      s2.orders.find? (fun o => o.id == oid && o.user_id == uid) =
        some { order with
          payment_status := PaymentStatus.failed
          payment_transaction_id := some gw.transaction_id
          status := OrderStatus.pending } ∧
      (∀ i : Nat, s2.products[i]? = s.products[i]?.map (fun p =>
        { p with stock_quantity := p.stock_quantity + restoredQty order.items p.id })) ∧
      (∀ s0 req onum, create_order_from_cart s0 uid req onum = (s, Except.ok order) →
        ∀ i : Nat, s2.products[i]? = s0.products[i]?) := by
  have hrun' := process_payment_failed_eq s uid oid order gw hfind hst hps hgw
  have hstocks : ∀ i : Nat,
      (restoreStock s.products order.items)[i]? = s.products[i]?.map (fun p =>
        { p with stock_quantity := p.stock_quantity + restoredQty order.items p.id }) := by
    intro i
    rw [restoreStock_eq s.products order.items hpres, applyDeltas_getElem?]
    rfl
  refine ⟨_, _, hrun', by simp [process_payment_final, hrun'], ?_, hstocks, ?_⟩
  · have h1 := find?_map_replace (fun o => o.id) _ order
      { order with payment_status := PaymentStatus.processing } s.orders hfind
      (by simpa using List.find?_some hfind)
    have h2 := find?_map_replace (fun o => o.id) _
      { order with payment_status := PaymentStatus.processing }
      { order with
        payment_status := gw.status
        payment_transaction_id := some gw.transaction_id
        status := OrderStatus.pending }
      _ h1 (by simpa using List.find?_some hfind)
    rw [← hgw]
    exact h2
  · intro s0 req onum hcreate i
    obtain ⟨cart, -, -, -, horder, hs⟩ := create_ok_inversion hcreate
    have hitems : order.items = cart.items.map (snapshotItem s0.products) := by
      rw [horder]; rfl
    rw [hstocks i, hs]
    show ((decrementStock s0.products cart.items)[i]?).map _ = _
    rw [decrementStock_eq, applyDeltas_getElem?, Option.map_map]
    cases s0.products[i]? with
    | none => rfl
    | some p =>
      simp [Function.comp, hitems, restoredQty_snapshot, stockDelta_decrement,
        neg_add_cancel_right]

/-- C3 witness: the example order paid against a failing gateway — both
commits happen, the error carries "Card declined", and stock returns to its
pre-checkout level 100. -/
theorem C3_witness :
    ∃ s1 s2, process_payment exPost 1 1 gwFail =
        ([s1, s2], Except.error (ApiError.paymentFailed gwFail.message)) ∧
      process_payment_final exPost 1 1 gwFail =
        (s2, Except.error (ApiError.paymentFailed gwFail.message)) ∧
      s2.orders.find? (fun o => o.id == 1 && o.user_id == 1) =
        some { exOrder with
          payment_status := PaymentStatus.failed
          payment_transaction_id := some gwFail.transaction_id
          status := OrderStatus.pending } ∧
      (∀ i : Nat, s2.products[i]? = exPost.products[i]?.map (fun p =>
        { p with stock_quantity := p.stock_quantity + restoredQty exOrder.items p.id })) ∧
      (∀ s0 req onum, create_order_from_cart s0 1 req onum = (exPost, Except.ok exOrder) →
        ∀ i : Nat, s2.products[i]? = s0.products[i]?) :=
  C3_payment_failure exPost 1 1 exOrder gwFail rfl rfl rfl rfl (by decide)

/-- C9: checkout followed by a failed payment (stock restored once) followed
by `cancel_order` (PENDING is cancellable) restores stock a second time:
cancel succeeds and each ordered product's final stock exceeds its
pre-checkout level by the ordered quantity. -/
theorem C9_double_restore (s0 : State) (uid : Nat) (req : CheckoutRequest) (onum : String)
    (s1 : State) (order : Order) (gw : PaymentResponse) (s2 : State)
    (r : Except ApiError Order)
    (hcreate : create_order_from_cart s0 uid req onum = (s1, Except.ok order))
    (hfresh : ∀ o ∈ s0.orders, o.id ≠ s0.nextOrderId)
    (hgw : gw.status = PaymentStatus.failed)
    (hrun : process_payment_final s1 uid order.id gw = (s2, r))
    (hqty : ∀ it ∈ order.items, 0 < it.quantity) :
    ∃ s3 o3, cancel_order s2 uid order.id = (s3, Except.ok o3) ∧
      o3.status = OrderStatus.cancelled ∧
      (∀ i : Nat, s3.products[i]? = s0.products[i]?.map (fun p =>
        { p with stock_quantity := p.stock_quantity + restoredQty order.items p.id })) ∧
      (∀ i : Nat, ∀ p, s0.products[i]? = some p →
        (∃ it ∈ order.items, it.product_id = p.id) →
        ∃ q, s3.products[i]? = some q ∧ p.stock_quantity < q.stock_quantity) := by
  obtain ⟨cart, hfc, hne2, hval, horder, hs1⟩ := create_ok_inversion hcreate
  have hoid : order.id = s0.nextOrderId := by rw [horder]; rfl
  have huser : order.user_id = uid := by rw [horder]; rfl
  have hstatus : order.status = OrderStatus.pending := by rw [horder]; rfl
  have hpstat : order.payment_status = PaymentStatus.pending := by rw [horder]; rfl
  have hitems : order.items = cart.items.map (snapshotItem s0.products) := by
    rw [horder]; rfl
  have hids1 : s1.products.map (fun q => q.id) = s0.products.map (fun q => q.id) := by
    rw [hs1]
    show (decrementStock s0.products cart.items).map _ = _
    rw [decrementStock_eq, applyDeltas_ids]
  have hpres0 : ∀ it ∈ order.items, it.product_id ∈ s0.products.map (fun q => q.id) := by
    intro it hit
    rw [hitems] at hit
    rcases List.mem_map.mp hit with ⟨ci, hci, rfl⟩
    obtain ⟨p, hp, -, -⟩ :=
      (validateCartItems_eq_none_iff s0.products cart.items).mp hval ci hci
    exact findProduct_mem_ids hp
  have hpres1 : ∀ it ∈ order.items, it.product_id ∈ s1.products.map (fun q => q.id) := by
    intro it hit
    rw [hids1]
    exact hpres0 it hit
  have hfind1 : s1.orders.find? (fun o => o.id == order.id && o.user_id == uid) =
      some order := by
    rw [hs1]
    show (s0.orders ++ [order]).find? _ = _
    rw [List.find?_append]
    have hnone : s0.orders.find? (fun o => o.id == order.id && o.user_id == uid) = none := by
      rw [List.find?_eq_none]
      intro o ho
      simp only [Bool.and_eq_true, beq_iff_eq, not_and]
      intro h1
      exact absurd (h1.trans hoid) (hfresh o ho)
    rw [hnone]
    simp [huser]
  have hrun' := process_payment_failed_eq s1 uid order.id order gw hfind1 hstatus hpstat hgw
  have hs2 : s2 = { setOrder
      (setOrder s1 { order with payment_status := PaymentStatus.processing })
      { order with
        payment_status := gw.status
        payment_transaction_id := some gw.transaction_id
        status := OrderStatus.pending } with
      products := restoreStock s1.products order.items } := by
    have hfst := congrArg Prod.fst hrun
    rw [process_payment_final, hrun'] at hfst
    simpa using hfst.symm
  have hfind2 : s2.orders.find? (fun o => o.id == order.id && o.user_id == uid) =
      some { order with
        payment_status := gw.status
        payment_transaction_id := some gw.transaction_id
        status := OrderStatus.pending } := by
    rw [hs2]
    have h1 := find?_map_replace (fun o => o.id) _ order
      { order with payment_status := PaymentStatus.processing } s1.orders hfind1
      (by simpa using List.find?_some hfind1)
    exact find?_map_replace (fun o => o.id) _
      { order with payment_status := PaymentStatus.processing }
      { order with
        payment_status := gw.status
        payment_transaction_id := some gw.transaction_id
        status := OrderStatus.pending }
      _ h1 (by simpa using List.find?_some hfind1)
  have hcancel : cancel_order s2 uid order.id =
      ({ setOrder s2 { order with
            payment_status := gw.status
            payment_transaction_id := some gw.transaction_id
            status := OrderStatus.cancelled } with
          products := restoreStock s2.products order.items },
        Except.ok { order with
          payment_status := gw.status
          payment_transaction_id := some gw.transaction_id
          status := OrderStatus.cancelled }) := by
    simp [cancel_order, hfind2, Order.can_be_cancelled]
  have hprod2 : s2.products = restoreStock s1.products order.items := by
    rw [hs2]
  have hids2 : s2.products.map (fun q => q.id) = s0.products.map (fun q => q.id) := by
    rw [hprod2, restoreStock_eq s1.products order.items hpres1, applyDeltas_ids, hids1]
  have hpres2 : ∀ it ∈ order.items, it.product_id ∈ s2.products.map (fun q => q.id) := by
    intro it hit
    rw [hids2]
    exact hpres0 it hit
  have hprod1 : s1.products = decrementStock s0.products cart.items := by
    rw [hs1]
  have hstocks : ∀ i : Nat,
      (restoreStock s2.products order.items)[i]? = s0.products[i]?.map (fun p =>
        { p with stock_quantity := p.stock_quantity + restoredQty order.items p.id }) := by
    intro i
    rw [restoreStock_eq s2.products order.items hpres2, applyDeltas_getElem?, hprod2,
      restoreStock_eq s1.products order.items hpres1, applyDeltas_getElem?, hprod1,
      decrementStock_eq, applyDeltas_getElem?, Option.map_map, Option.map_map]
    cases s0.products[i]? with
    | none => rfl
    | some p =>
      simp only [Option.map_some', Function.comp]
      refine congrArg (fun st => some ({ id := p.id, name := p.name, sku := p.sku, price := p.price, stock_quantity := st, is_active := p.is_active } : Product)) ?_
      show p.stock_quantity +
          stockDelta (cart.items.map (fun ci => (ci.product_id, -(ci.quantity : Int)))) p.id +
          restoredQty order.items p.id + restoredQty order.items p.id =
        p.stock_quantity + restoredQty order.items p.id
      have hR : restoredQty order.items p.id = orderedQty cart.items p.id := by
        rw [hitems]
        exact restoredQty_snapshot s0.products cart.items p.id
      rw [stockDelta_decrement, hR]
      omega
  refine ⟨_, _, hcancel, rfl, hstocks, ?_⟩
  intro i p hp0 hmem
  refine ⟨{ p with stock_quantity := p.stock_quantity + restoredQty order.items p.id },
    by rw [hstocks i, hp0]; rfl, ?_⟩
  have hpos := restoredQty_pos order.items p.id hqty hmem
  show p.stock_quantity < p.stock_quantity + restoredQty order.items p.id
  omega

/-- C9 witness: the example run — checkout (stock 100 → 98), failed payment
(98 → 100), cancel (100 → 102): each product ends strictly above its
pre-checkout stock, by exactly the ordered quantity. -/
theorem C9_witness :
    ∃ s3 o3, cancel_order exFailed 1 exOrder.id = (s3, Except.ok o3) ∧
      o3.status = OrderStatus.cancelled ∧
      (∀ i : Nat, s3.products[i]? = exState.products[i]?.map (fun p =>
        { p with stock_quantity := p.stock_quantity + restoredQty exOrder.items p.id })) ∧
      (∀ i : Nat, ∀ p, exState.products[i]? = some p →
        (∃ it ∈ exOrder.items, it.product_id = p.id) →
        ∃ q, s3.products[i]? = some q ∧ p.stock_quantity < q.stock_quantity) :=
  C9_double_restore exState 1 exReq "ORD-1" exPost exOrder gwFail exFailed
    (Except.error (ApiError.paymentFailed "Card declined")) rfl
    (fun o ho => absurd ho (List.not_mem_nil o)) rfl rfl
    (by decide)

end ECom
